import Mathlib

/-!
Verification of the `chatty` IDL compiler (`src/chatty/__init__.py`).

The Python pipeline is embedded shallowly:

* the mutable `Scan` class becomes a `Scan` structure with explicit state
  passing (`_src` is kept as a `List Char`, indexed by character offset,
  matching Python string indexing);
* exceptions (`ScanError`) become `Except ScanError`;
* loops in the parser become fueled recursion — fuel exhaustion is an
  explicit error, so a successful concrete evaluation is a genuine result
  of the source algorithm, never an artifact of the fuel;
* Python `dict` (insertion ordered, update-in-place) becomes an
  association list with an `insert` that replaces in place;
* `hashlib.md5` is implemented in full (RFC 1321) over `Nat` with explicit
  `% 2^32` reductions.
-/

namespace Chatty

-- ==== Character predicates ==================================================

/-- Python's `str.isspace` restricted to the ASCII whitespace characters
(space, tab, newline, carriage return, vertical tab, form feed).  All inputs
the parser deals with are ASCII. -/
def pyIsSpace (c : Char) : Bool :=
  c == ' ' || c == '\t' || c == '\n' || c == '\r' ||
  c == Char.ofNat 11 || c == Char.ofNat 12

/-- Python's `str.isalpha` restricted to ASCII letters. -/
def pyIsAlpha (c : Char) : Bool :=
  (97 ≤ c.toNat && c.toNat ≤ 122) || (65 ≤ c.toNat && c.toNat ≤ 90)

/-- Python's `str.isdigit` restricted to ASCII digits. -/
def pyIsDigit (c : Char) : Bool :=
  48 ≤ c.toNat && c.toNat ≤ 57

/-- Python's `str.isalnum` restricted to ASCII. -/
def pyIsAlnum (c : Char) : Bool :=
  pyIsAlpha c || pyIsDigit c

/-- The single-quote character `'`, written numerically. -/
def squoteChar : Char := Char.ofNat 39

/-- The backslash character. -/
def backslashChar : Char := Char.ofNat 92

-- ==== Scanner (class Scan) ==================================================

/-- Python `ScanError(where, what)`: the single error kind of the pipeline. -/
structure ScanError where
  whereOff : Nat
  what : String
  deriving Repr, DecidableEq

/-- Python `Tok(start, end, text)`: an immutable capture of a source range. -/
structure Tok where
  start : Nat
  stop : Nat
  text : String
  deriving Repr, DecidableEq

/-- The scanner state: `class Scan` of the source.  `_src` is the immutable
source, `_off` the cursor, `_start` the last `begin()` mark, `saveStack`
the `_save` list (Python appends/pops at the end; we cons/uncons at the
head, which models the same stack). -/
structure Scan where
  src : List Char
  off : Nat
  start : Nat
  saveStack : List Nat
  deriving Repr, DecidableEq

namespace Scan

/-- Python `Scan.__init__(self, src, off = 0)`: note the Python constructor sets
`self._off = 0` and never reads its `off` parameter. -/
def init (src : String) (offParam : Int) : Scan :=
  { src := src.toList, off := 0, start := 0, saveStack := [] }

/-- Python `Scan.eof`. -/
def eof (s : Scan) : Bool :=
  s.src.length ≤ s.off

/-- Python `Scan.curr`: the character under the cursor, or NUL at end of input. -/
def curr (s : Scan) : Char :=
  if s.eof then Char.ofNat 0 else s.src.getD s.off (Char.ofNat 0)

/-- Python `Scan.next`: advance by one unless at end of input.  (Python also
returns the new current character; no caller of `next` uses that value,
so the embedding returns only the state.) -/
def next (s : Scan) : Scan :=
  if s.eof then s else { s with off := s.off + 1 }

/-- Python `Scan.skipStr`: if the remaining input starts with `t`, consume it. -/
def skipStr (s : Scan) (t : String) : Bool × Scan :=
  if t.toList.isPrefixOf (s.src.drop s.off) then
    (true, { s with off := s.off + t.length })
  else
    (false, s)

/-- Python `Scan.save`: push the cursor offset. -/
def save (s : Scan) : Scan :=
  { s with saveStack := s.off :: s.saveStack }

/-- Python `Scan.restore`: pop the save stack into the cursor offset.  Every
`restore` in the source is preceded by a matching `save`, so the stack is
never empty when `restore` runs; on an empty stack the embedding leaves the
state unchanged. -/
def restore (s : Scan) : Scan :=
  match s.saveStack with
  | x :: rest => { s with off := x, saveStack := rest }
  | [] => s

/-- Python `Scan.isStr`: non-consuming `skipStr` (save / skipStr / restore). -/
def isStr (s : Scan) (t : String) : Bool × Scan :=
  let s1 := s.save
  let (b, s2) := s1.skipStr t
  if b then (true, s2.restore) else (false, s2.restore)

/-- Python `Scan.begin`: mark the start of a capture. -/
def begin (s : Scan) : Scan :=
  { s with start := s.off }

/-- Python `Scan.end`: capture the token from the last `begin` mark to the cursor
(named `endTok` since `end` is reserved in Lean). -/
def endTok (s : Scan) : Tok :=
  { start := s.start, stop := s.off,
    text := String.mk ((s.src.drop s.start).take (s.off - s.start)) }

/-- Structural helper for the `skipWhitespace` loop.  The first argument
counts the characters left (`src.length - off`): each iteration that passes
the guard has `off < src.length`, so the count never reaches zero while the
guard still holds, and the result is exactly the loop's final offset. -/
def wsEndAux : Nat → List Char → Nat → Nat
  | 0, _, off => off
  | n + 1, src, off =>
    if off < src.length && pyIsSpace (src.getD off (Char.ofNat 0)) then
      wsEndAux n src (off + 1)
    else off

/-- The final cursor offset of the `skipWhitespace` loop
(`while not eof and curr().isspace(): next()`). -/
def wsEnd (src : List Char) (off : Nat) : Nat :=
  wsEndAux (src.length - off) src off

/-- Python `Scan.skipWhitespace`: advance over whitespace.  (Python also returns
whether anything was skipped; no caller uses that value.) -/
def skipWhitespace (s : Scan) : Scan :=
  { s with off := wsEnd s.src s.off }

/-- Python `Scan.skipSeparator`.  On success the saved offset is left on the save
stack, exactly as in the source (the success path never pops). -/
def skipSeparator (s : Scan) (sep : String) : Bool × Scan :=
  let s1 := (s.save).skipWhitespace
  let (b, s2) := s1.skipStr sep
  if b then (true, s2.skipWhitespace) else (false, s2.restore)

/-- Python `Scan.isSeparator`: like `skipSeparator` but restoring on success too. -/
def isSeparator (s : Scan) (sep : String) : Bool × Scan :=
  let s1 := (s.save).skipWhitespace
  let (b, s2) := s1.skipStr sep
  if b then (true, ((s2.skipWhitespace).restore)) else (false, s2.restore)

/-- Python `Scan.skipKeyword`: separator matching plus a keyword-boundary check
(the character after the match must not be alphanumeric).  As in the
source, a successful match leaves the saved offset on the stack. -/
def skipKeyword (s : Scan) (kw : String) : Bool × Scan :=
  let s1 := (s.save).skipWhitespace
  let (b, s2) := s1.skipStr kw
  if b && !(pyIsAlnum s2.curr) then (true, s2.skipWhitespace)
  else (false, s2.restore)

/-- Python `Scan.isKeyword`: non-consuming `skipKeyword`. -/
def isKeyword (s : Scan) (kw : String) : Bool × Scan :=
  let s1 := (s.save).skipWhitespace
  let (b, s2) := s1.skipStr kw
  if b && !(pyIsAlnum s2.curr) then (true, s2.restore)
  else (false, s2.restore)

/-- Python `Scan.error`: build the `ScanError` raised at the current offset. -/
def mkError (s : Scan) (what : String) : ScanError :=
  { whereOff := s.off, what := what }

/-- Python `Scan.expectSeparator`. -/
def expectSeparator (s : Scan) (sep : String) : Except ScanError Scan :=
  let (b, s1) := s.skipSeparator sep
  if b then .ok s1
  else .error (s1.mkError ("Expected separator \x27" ++ sep ++ "\x27"))

/-- Python `Scan.expectKeyword`. -/
def expectKeyword (s : Scan) (kw : String) : Except ScanError Scan :=
  let (b, s1) := s.skipKeyword kw
  if b then .ok s1
  else .error (s1.mkError ("Expected keyword \x27" ++ kw ++ "\x27"))

end Scan

-- ==== AST ===================================================================

/-- Python `class Func`: `name`, ordered `args` as `(type, name)` pairs, result
type text `res`. -/
structure Func where
  name : String
  args : List (String × String)
  res : String
  deriving Repr, DecidableEq

/-- Python `class Iface`: `name` and the `funcs` dict (insertion-ordered mapping
from function name to `Func`, modelled as an association list). -/
structure Iface where
  name : String
  funcs : List (String × Func)
  deriving Repr, DecidableEq

/-- Python `class Module`: `name`, ordered `includes`, and the `ifaces` dict. -/
structure Module where
  name : String
  includes : List String
  ifaces : List (String × Iface)
  deriving Repr, DecidableEq

/-- Python `dict.__setitem__` on an insertion-ordered dict: an existing key
keeps its position and gets the new value; a new key is appended. -/
def dictInsert {α : Type} : List (String × α) → String → α → List (String × α)
  | [], k, v => [(k, v)]
  | (k', v') :: rest, k, v =>
    if k' = k then (k, v) :: rest else (k', v') :: dictInsert rest k v

-- ==== Parser ================================================================

/-- The `ScanError` used to signal fuel exhaustion of the embedding's
bounded recursion.  Every loop of the Python parser makes progress, so
with enough fuel this error never fires; a concrete run returning `.ok`
is a genuine run of the source algorithm. -/
def fuelError (s : Scan) : ScanError :=
  s.mkError "out of fuel"

/-- Python `nextIdent`: `while curr().isalnum() or curr() == '_': next()`.  The
same loop body is inlined in `parseIdent` in the source. -/
def nextIdent : Nat → Scan → Except ScanError Scan
  | 0, s => .error (fuelError s)
  | fuel + 1, s =>
    if pyIsAlnum s.curr || s.curr == '_' then nextIdent fuel s.next
    else .ok s

/-- Python `BRAKETS`: the bracket pairs tracked by `parseType`. -/
def BRAKETS : List (Char × Char) :=
  [('\x7b', '\x7d'), ('[', ']'), ('(', ')')]

/-- The loop of `nextBrackets`:
`while not eof() and not skipSeparator(close): next()`. -/
def nextBracketsLoop : Nat → Scan → String → Except ScanError Scan
  | 0, s, _ => .error (fuelError s)
  | fuel + 1, s, close =>
    if s.eof then .ok s
    else
      let (b, s1) := s.skipSeparator close
      if b then .ok s1 else nextBracketsLoop fuel s1.next close

/-- Python `nextBrackets`: consume an opening bracket, then everything up to and
including the first occurrence of the closing bracket. -/
def nextBrackets (fuel : Nat) (s : Scan) (openB closeB : String) :
    Except ScanError Scan := do
  let s ← s.expectSeparator openB
  nextBracketsLoop fuel s closeB

/-- Python `skipNamespaceSep`: try to consume `::`. -/
def skipNamespaceSep (s : Scan) : Bool × Scan :=
  s.skipStr "::"

/-- Python `parseIdent`: whitespace, an alphabetic start (else "Expected
identifier"), then the identifier run, then trailing whitespace. -/
def parseIdent (fuel : Nat) (s : Scan) : Except ScanError (Tok × Scan) := do
  let s := s.skipWhitespace
  if pyIsAlpha s.curr then
    let s := s.begin
    let s ← nextIdent fuel s
    let ident := s.endTok
    let s := s.skipWhitespace
    .ok (ident, s)
  else
    .error (s.mkError "Expected identifier")

/-- The `while skipNamespaceSep(s): nextIdent(s)` loop of
`parseNamespacedIdent`. -/
def namespacedLoop : Nat → Scan → Except ScanError Scan
  | 0, s => .error (fuelError s)
  | fuel + 1, s =>
    let (b, s1) := skipNamespaceSep s
    if b then do
      let s2 ← nextIdent fuel s1
      namespacedLoop fuel s2
    else .ok s1

/-- Python `parseNamespacedIdent`: an identifier run, optionally followed by
`::`-separated runs, captured as one token.  Note it uses `nextIdent`
directly, with no alphabetic-start check. -/
def parseNamespacedIdent (fuel : Nat) (s : Scan) :
    Except ScanError (Tok × Scan) := do
  let s := s.begin
  let s ← nextIdent fuel s
  let s ← namespacedLoop fuel s
  .ok (s.endTok, s)

/-- The loop of `parseType`: stop at end of input or before a `,` or `)`;
an opening bracket from `BRAKETS` triggers `nextBrackets`, anything else
is consumed one character at a time. -/
def parseTypeLoop : Nat → Scan → Except ScanError Scan
  | 0, s => .error (fuelError s)
  | fuel + 1, s =>
    if s.eof then .ok s
    else if (s.isSeparator ",").1 then .ok s
    else if (s.isSeparator ")").1 then .ok s
    else
      match (BRAKETS.find? (fun p => p.1 == s.curr)) with
      | some p => do
          let s1 ← nextBrackets fuel s (String.mk [p.1]) (String.mk [p.2])
          parseTypeLoop fuel s1
      | none => parseTypeLoop fuel s.next

/-- Python `parseType`: capture everything up to (but not consuming) the next
top-level `,` or `)`. -/
def parseType (fuel : Nat) (s : Scan) : Except ScanError (Tok × Scan) := do
  let s := s.begin
  let s1 ← parseTypeLoop fuel s
  .ok (s1.endTok, s1)

/-- The quote-run loop of `parseQuotes`: `while curr() == first: next()`. -/
def quoteRun : Nat → Char → Scan → Except ScanError Scan
  | 0, _, s => .error (fuelError s)
  | fuel + 1, first, s =>
    if s.curr == first then quoteRun fuel first s.next
    else .ok s

/-- Python `parseQuotes`: read the run of identical quote characters that opens a
string literal; returns the delimiter text and whether the literal is raw
(delimiter longer than one character). -/
def parseQuotes (fuel : Nat) (s : Scan) :
    Except ScanError (String × Bool × Scan) := do
  if s.curr == '"' || s.curr == squoteChar then
    let s := s.begin
    let first := s.curr
    let s ← quoteRun fuel first s
    let quotes := s.endTok.text
    .ok (quotes, decide (1 < quotes.length), s)
  else
    .error (s.mkError "Expected quotes")

/-- The body loop of `parseString`: scan to the closing delimiter; in a
non-raw literal a backslash consumes the following character as well (and
end of input right after a backslash is "Expected escape sequence"). -/
def stringLoop : Nat → String → Bool → Scan → Except ScanError Scan
  | 0, _, _, s => .error (fuelError s)
  | fuel + 1, quotes, raw, s =>
    if s.eof then .ok s
    else if (s.isStr quotes).1 then .ok s
    else if s.curr == backslashChar && !raw then
      let s1 := s.next
      if s1.eof then .error (s1.mkError "Expected escape sequence")
      else stringLoop fuel quotes raw s1.next
    else stringLoop fuel quotes raw s.next

/-- Python `parseString`: a quoted literal; the captured token excludes the
delimiters. -/
def parseString (fuel : Nat) (s : Scan) : Except ScanError (Tok × Scan) := do
  let (quotes, raw, s) ← parseQuotes fuel s
  let s := s.begin
  let s ← stringLoop fuel quotes raw s
  let t := s.endTok
  let (_, s) := s.skipStr quotes
  .ok (t, s)

/-- The argument loop of `parseFunc`: until `)`, parse `name : type` pairs,
append `(type, name)`, and try to skip a `,`. -/
def funcArgsLoop : Nat → Scan → List (String × String) →
    Except ScanError (List (String × String) × Scan)
  | 0, s, _ => .error (fuelError s)
  | fuel + 1, s, acc =>
    let (b, s1) := s.skipSeparator ")"
    if b then .ok (acc, s1)
    else do
      let (argName, s2) ← parseIdent fuel s1
      let s3 ← s2.expectSeparator ":"
      let (argType, s4) ← parseType fuel s3
      let (_, s5) := s4.skipSeparator ","
      funcArgsLoop fuel s5 (acc ++ [(argType.text, argName.text)])

/-- Python `parseFunc`: `ident "(" args ")" "->" type`. -/
def parseFunc (fuel : Nat) (s : Scan) : Except ScanError (Func × Scan) := do
  let (nameTok, s) ← parseIdent fuel s
  let s ← s.expectSeparator "("
  let (args, s) ← funcArgsLoop fuel s []
  let s ← s.expectSeparator "->"
  let (resTok, s) ← parseType fuel s
  .ok ({ name := nameTok.text, args := args, res := resTok.text }, s)

/-- The function loop of `parseIface`: until `}`, parse a function, store
it in the `funcs` dict under its name, and expect a `,`. -/
def ifaceFuncsLoop : Nat → Scan → List (String × Func) →
    Except ScanError (List (String × Func) × Scan)
  | 0, s, _ => .error (fuelError s)
  | fuel + 1, s, acc =>
    let (b, s1) := s.skipSeparator "\x7d"
    if b then .ok (acc, s1)
    else do
      let (f, s2) ← parseFunc fuel s1
      let acc := dictInsert acc f.name f
      let s3 ← s2.expectSeparator ","
      ifaceFuncsLoop fuel s3 acc

/-- Python `parseIface`: `ident "{" func* "}"`. -/
def parseIface (fuel : Nat) (s : Scan) : Except ScanError (Iface × Scan) := do
  let (nameTok, s) ← parseIdent fuel s
  let s ← s.expectSeparator "\x7b"
  let (funcs, s) ← ifaceFuncsLoop fuel s []
  .ok ({ name := nameTok.text, funcs := funcs }, s)

/-- The include loop of `parseModule`: while the keyword `include` is
present, parse a string literal and append its text. -/
def includesLoop : Nat → Scan → List String →
    Except ScanError (List String × Scan)
  | 0, s, _ => .error (fuelError s)
  | fuel + 1, s, acc =>
    let (b, s1) := s.skipKeyword "include"
    if b then do
      let (t, s2) ← parseString fuel s1
      includesLoop fuel s2 (acc ++ [t.text])
    else .ok (acc, s1)

/-- The interface loop of `parseModule`: parse interfaces until end of
input, storing each in the `ifaces` dict under its name. -/
def ifacesLoop : Nat → Scan → List (String × Iface) →
    Except ScanError (List (String × Iface) × Scan)
  | 0, s, _ => .error (fuelError s)
  | fuel + 1, s, acc =>
    if s.eof then .ok (acc, s)
    else do
      let (iface, s1) ← parseIface fuel s
      ifacesLoop fuel s1 (dictInsert acc iface.name iface)

/-- Python `parseModule`: `"module" namespacedIdent include* iface*`. -/
def parseModule (fuel : Nat) (s : Scan) : Except ScanError (Module × Scan) := do
  let s ← s.expectKeyword "module"
  let (nameTok, s) ← parseNamespacedIdent fuel s
  let (includes, s) ← includesLoop fuel s []
  let (ifaces, s) ← ifacesLoop fuel s []
  .ok ({ name := nameTok.text, includes := includes, ifaces := ifaces }, s)

-- ==== hashlib.md5 (RFC 1321) ================================================

/-- UTF-8 encoding of one character, as byte values (`str.encode`). -/
def utf8Bytes (c : Char) : List Nat :=
  let n := c.toNat
  if n < 128 then [n]
  else if n < 2048 then [192 + n / 64, 128 + n % 64]
  else if n < 65536 then [224 + n / 4096, 128 + n / 64 % 64, 128 + n % 64]
  else [240 + n / 262144, 128 + n / 4096 % 64, 128 + n / 64 % 64, 128 + n % 64]

/-- UTF-8 encoding of a string, as byte values. -/
def strBytes (s : String) : List Nat :=
  s.toList.flatMap utf8Bytes

/-- The four bytes of a 32-bit word, little endian. -/
def wordLE (w : Nat) : List Nat :=
  [w % 256, w / 256 % 256, w / 65536 % 256, w / 16777216 % 256]

/-- The eight bytes of a 64-bit value, little endian. -/
def word64LE (w : Nat) : List Nat :=
  wordLE (w % 4294967296) ++ wordLE (w / 4294967296 % 4294967296)

/-- MD5 padding: a `0x80` byte, zeros to 56 mod 64, then the bit length
modulo `2^64`, little endian. -/
def md5Pad (msg : List Nat) : List Nat :=
  msg ++ [128] ++ List.replicate ((120 - (msg.length + 1) % 64) % 64) 0
      ++ word64LE (msg.length * 8 % 18446744073709551616)

/-- Left rotation of a 32-bit word. -/
def rotl32 (x c : Nat) : Nat :=
  (x * 2 ^ c + x / 2 ^ (32 - c)) % 4294967296

/-- Bitwise complement of a 32-bit word. -/
def not32 (x : Nat) : Nat :=
  4294967295 ^^^ x

/-- The MD5 sine-derived round constants `K[0..63]`. -/
def md5K : List Nat :=
  [3614090360, 3905402710, 606105819, 3250441966, 4118548399, 1200080426,
   2821735955, 4249261313, 1770035416, 2336552879, 4294925233, 2304563134,
   1804603682, 4254626195, 2792965006, 1236535329, 4129170786, 3225465664,
   643717713, 3921069994, 3593408605, 38016083, 3634488961, 3889429448,
   568446438, 3275163606, 4107603335, 1163531501, 2850285829, 4243563512,
   1735328473, 2368359562, 4294588738, 2272392833, 1839030562, 4259657740,
   2763975236, 1272893353, 4139469664, 3200236656, 681279174, 3936430074,
   3572445317, 76029189, 3654602809, 3873151461, 530742520, 3299628645,
   4096336452, 1126891415, 2878612391, 4237533241, 1700485571, 2399980690,
   4293915773, 2240044497, 1873313359, 4264355552, 2734768916, 1309151649,
   4149444226, 3174756917, 718787259, 3951481745]

/-- The MD5 per-round left-rotation amounts `S[0..63]`. -/
def md5S : List Nat :=
  [7, 12, 17, 22, 7, 12, 17, 22, 7, 12, 17, 22, 7, 12, 17, 22,
   5, 9, 14, 20, 5, 9, 14, 20, 5, 9, 14, 20, 5, 9, 14, 20,
   4, 11, 16, 23, 4, 11, 16, 23, 4, 11, 16, 23, 4, 11, 16, 23,
   6, 10, 15, 21, 6, 10, 15, 21, 6, 10, 15, 21, 6, 10, 15, 21]

/-- Word `g` of a 64-byte chunk, little endian. -/
def chunkWord (chunk : List Nat) (g : Nat) : Nat :=
  let b := chunk.drop (4 * g)
  b.getD 0 0 + 256 * b.getD 1 0 + 65536 * b.getD 2 0 + 16777216 * b.getD 3 0

/-- One MD5 round `i` on state `(a, b, c, d)` with message words `M`. -/
def md5Round (M : Nat → Nat) (st : Nat × Nat × Nat × Nat) (i : Nat) :
    Nat × Nat × Nat × Nat :=
  let (a, b, c, d) := st
  let fg : Nat × Nat :=
    if i < 16 then ((b &&& c) ||| (not32 b &&& d), i)
    else if i < 32 then ((d &&& b) ||| (not32 d &&& c), (5 * i + 1) % 16)
    else if i < 48 then (b ^^^ c ^^^ d, (3 * i + 5) % 16)
    else (c ^^^ (b ||| not32 d), 7 * i % 16)
  let f := (fg.1 + a + md5K.getD i 0 + M fg.2) % 4294967296
  (d, (b + rotl32 f (md5S.getD i 0)) % 4294967296, b, c)

/-- Process one 64-byte chunk: 64 rounds, then add into the running state. -/
def md5Chunk (st : Nat × Nat × Nat × Nat) (chunk : List Nat) :
    Nat × Nat × Nat × Nat :=
  let r := (List.range 64).foldl (md5Round (chunkWord chunk)) st
  ((st.1 + r.1) % 4294967296, (st.2.1 + r.2.1) % 4294967296,
   (st.2.2.1 + r.2.2.1) % 4294967296, (st.2.2.2 + r.2.2.2) % 4294967296)

/-- Structural helper processing a message 64 bytes at a time.  The first
argument bounds the iteration count (`l.length` suffices: every iteration
removes at least one byte), and once the list is empty the loop stops, so
the result is exactly the loop's final state. -/
def md5ChunksAux : Nat → Nat × Nat × Nat × Nat → List Nat →
    Nat × Nat × Nat × Nat
  | 0, st, _ => st
  | n + 1, st, l =>
    if 0 < l.length then md5ChunksAux n (md5Chunk st (l.take 64)) (l.drop 64)
    else st

/-- Process a padded message 64 bytes at a time. -/
def md5Chunks (st : Nat × Nat × Nat × Nat) (l : List Nat) :
    Nat × Nat × Nat × Nat :=
  md5ChunksAux l.length st l

/-- The MD5 state `(a0, b0, c0, d0)` after hashing a string's UTF-8 bytes. -/
def md5Final (s : String) : Nat × Nat × Nat × Nat :=
  md5Chunks (1732584193, 4023233417, 2562383102, 271733878)
    (md5Pad (strBytes s))

/-- The 16 digest bytes of `hashlib.md5(s.encode()).digest()`. -/
def md5Digest (s : String) : List Nat :=
  let st := md5Final s
  wordLE st.1 ++ wordLE st.2.1 ++ wordLE st.2.2.1 ++ wordLE st.2.2.2

/-- Lowercase hexadecimal digit for `n` (`n` is always below 16 here). -/
def hexDigit (n : Nat) : Char :=
  "0123456789abcdef".toList.getD n '0'

/-- The two lowercase hex characters of one byte. -/
def byteHex (b : Nat) : List Char :=
  [hexDigit (b / 16 % 16), hexDigit (b % 16)]

/-- Python `hashlib.md5(s.encode()).hexdigest()` as a character list. -/
def md5HexChars (s : String) : List Char :=
  ((md5Digest s).map byteHex).flatten

/-- Python `hashlib.md5(name.encode()).hexdigest()[0:16]`: the shared identifier
derivation of `Func.id` and `Iface.id`. -/
def idOf (name : String) : String :=
  String.mk ((md5HexChars name).take 16)

/-- Python `Func.id`. -/
def Func.id (f : Func) : String := idOf f.name

/-- Python `Iface.id`. -/
def Iface.id (i : Iface) : String := idOf i.name

-- ==== C++ Codegen ===========================================================

/-- Python `genVirtualFunc`: the UID constant and pure-virtual declaration of one
function. -/
def genVirtualFunc (f : Func) : String :=
  "\n    static constexpr auto " ++ f.name ++ "_UID = 0x" ++ f.id ++
  ";\n    virtual " ++ f.res ++ " " ++ f.name ++ "(" ++
  String.intercalate ", " (f.args.map (fun p => p.1 ++ " " ++ p.2)) ++
  ") = 0;\n    "

/-- Python `genVirtualFuncs`: all of an interface's virtual declarations. -/
def genVirtualFuncs (iface : Iface) : String :=
  String.intercalate "\n" (iface.funcs.map (fun p => genVirtualFunc p.2))

/-- Python `genVirtualClass`: the virtual base class of one interface. -/
def genVirtualClass (module : Module) (iface : Iface) : String :=
  "\nstruct I" ++ iface.name ++ "\n\x7b\n    static constexpr auto _UID = 0x"
  ++ iface.id ++ ";\n    static constexpr auto _NAME = \"" ++ module.name ++
  "::" ++ iface.name ++
  "\";\n\n    template <typename T>\n    struct _Client;\n\n    auto _dispatch(auto);\n\n    virtual ~I"
  ++ iface.name ++ "() = default;\n    " ++ genVirtualFuncs iface ++
  "\n\x7d;\n"

/-- Python `genVirtualIfaces`. -/
def genVirtualIfaces (module : Module) (ifaces : List (String × Iface)) :
    String :=
  String.intercalate "\n" (ifaces.map (fun p => genVirtualClass module p.2))

/-- Python `genClientFunc`: the client-stub body of one function. -/
def genClientFunc (iface : Iface) (f : Func) : String :=
  let clientFuncArgs :=
    String.intercalate ", " (f.args.map (fun p => p.1 ++ " " ++ p.2))
  let invokeTmpArgs :=
    String.intercalate ", " (f.res :: f.args.map (fun p => p.1))
  let invokeFncArgs :=
    String.intercalate ", " (f.args.map (fun p => "std::move(" ++ p.2 ++ ")"))
  "\n" ++ f.res ++ " " ++ f.name ++ "(" ++ clientFuncArgs ++
  ")\n\x7b\n    return _t.template invoke<I" ++ iface.name ++ ", " ++
  f.name ++ "_UID,  " ++ invokeTmpArgs ++ ">(" ++ invokeFncArgs ++
  ");\n\x7d\n"

/-- Python `genClientFuncs`. -/
def genClientFuncs (iface : Iface) : String :=
  String.intercalate "\n" (iface.funcs.map (fun p => genClientFunc iface p.2))

/-- Python `genClientClass`: the `_Client` wrapper of one interface. -/
def genClientClass (iface : Iface) : String :=
  "\ntemplate <typename T>\nstruct I" ++ iface.name ++
  "::_Client : public I" ++ iface.name ++
  "\n\x7b\n    T _t;\n\n    _Client(T t) : _t\x7bt\x7d \x7b\x7d\n\n    " ++
  genClientFuncs iface ++ "\n\x7d;\n"

/-- Python `genClientIfaces`. -/
def genClientIfaces (ifaces : List (String × Iface)) : String :=
  String.intercalate "\n" (ifaces.map (fun p => genClientClass p.2))

/-- Python `genDispatchCase`: one `case` of the dispatch switch.  (The `iface`
parameter is unused, as in the source.) -/
def genDispatchCase (iface : Iface) (f : Func) : String :=
  "\ncase " ++ f.name ++ "_UID:\n    return o.template call<" ++
  String.intercalate ", " (f.args.map (fun p => p.1)) ++
  ">([&]<typename... Args>(Args &&... args) \x7b\n        return " ++
  f.name ++
  "(std::forward<Args>(args)...);\n    \x7d);\n"

/-- Python `genDispatchCases`. -/
def genDispatchCases (iface : Iface) : String :=
  String.intercalate "\n" (iface.funcs.map (fun p => genDispatchCase iface p.2))

/-- Python `genDispatchFunc`: the `_dispatch` switch of one interface. -/
def genDispatchFunc (iface : Iface) : String :=
  "\nauto I" ++ iface.name ++
  "::_dispatch(auto o)\n\x7b\n    switch (o.mid())\n    \x7b\n        " ++
  genDispatchCases iface ++
  "\n        default: return o.error();\n    \x7d\n\x7d\n"

/-- Python `genDispatchFuncs`. -/
def genDispatchFuncs (ifaces : List (String × Iface)) : String :=
  String.intercalate "\n" (ifaces.map (fun p => genDispatchFunc p.2))

/-- Python `genIncludes`: one `#include <...>` line per entry. -/
def genIncludes (includes : List String) : String :=
  String.intercalate "\n" (includes.map (fun i => "#include <" ++ i ++ ">"))

/-- The full generated document body, in the emission order of `main`
(includes, virtual interfaces, client interfaces, dispatch functions). -/
def genAll (module : Module) : String :=
  genIncludes module.includes ++ "\n" ++
  genVirtualIfaces module module.ifaces ++ "\n" ++
  genClientIfaces module.ifaces ++ "\n" ++
  genDispatchFuncs module.ifaces

-- ==== Concrete inputs from the specification ================================

/-- The concrete IDL document of the specification's end-to-end scenario. -/
def demoSource : String :=
  "module demo\ninclude \"cstdint\"\nGreeter \x7b\n    greet(name: string) -> string,\n\x7d\n"

/-- The AST the specification expects for `demoSource`. -/
def demoModule : Module :=
  { name := "demo",
    includes := ["cstdint"],
    ifaces := [("Greeter",
      { name := "Greeter",
        funcs := [("greet",
          { name := "greet",
            args := [("string", "name")],
            res := "string" })] })] }

-- ==== Theorems ==============================================================

/-- Claim C1: parsing the concrete demo source (module `demo`, include
`cstdint`, interface `Greeter` with one function `greet`) with
`parseModule` succeeds and returns a Module named `demo`, with includes
`["cstdint"]`, and exactly one interface `Greeter` holding exactly one
function `greet` with argument list `[("string", "name")]` and result type
text `string`. -/
theorem parseModule_demo :
    (parseModule 200 (Scan.init demoSource 0)).map Prod.fst
      = .ok demoModule := rfl

/-- Claim C2 counterexample: the claim fails on brackets nested inside
brackets of the same kind.  On the type text `Fn((a,b),c)` followed by a
comma, the next top-level comma is the trailing one, so the claim requires
the capture `Fn((a,b),c)`; the code instead stops the bracket skip at the
first closing parenthesis, and the capture terminates at the comma after
`(a,b)`. -/
theorem parseType_nested_counterexample :
    (parseType 200 (Scan.init "Fn((a,b),c)," 0)).map (fun p => p.1.text)
        = .ok "Fn((a,b)"
    ∧ ("Fn((a,b)" : String) ≠ "Fn((a,b),c)" :=
  ⟨rfl, by decide⟩

/-- Claim C2 amended: `parseType` tracks one level of `{}`, `[]`, `()`
bracketing by skipping from an opening bracket to the first following
closing bracket of the same kind, without tracking nesting depth: a comma
inside a non-nested bracketed subexpression does not terminate the capture
(`Pair(a,b)` followed by a comma is captured whole), but in `Fn((a,b),c)`
the first closing parenthesis ends the bracket skip and the capture stops
at the comma after `(a,b)`. -/
theorem parseType_first_close_ends_bracket :
    (parseType 200 (Scan.init "Pair(a,b)," 0)).map (fun p => p.1.text)
        = .ok "Pair(a,b)"
    ∧ (parseType 200 (Scan.init "Fn((a,b),c)," 0)).map (fun p => p.1.text)
        = .ok "Fn((a,b)" :=
  ⟨rfl, rfl⟩

/-- Claim C3 counterexample: angle brackets are not in `BRAKETS`, so on the
argument type text `Map<string, (int, int)>` followed by a comma the
capture terminates at the comma inside the angle brackets, yielding
`Map<string` rather than the whole text the claim requires. -/
theorem parseType_angle_counterexample :
    (parseType 200 (Scan.init "Map<string, (int, int)>," 0)).map
        (fun p => p.1.text)
      = .ok "Map<string"
    ∧ ("Map<string" : String) ≠ "Map<string, (int, int)>" :=
  ⟨rfl, by decide⟩

/-- Claim C3 amended: only `{}`, `[]` and `()` are tracked.  With a tracked
bracket kind the internal comma does not terminate the capture: the type
text `Map[string, (int, int)]` followed by a comma is captured whole, while
the angle-bracket version stops at the internal comma. -/
theorem parseType_tracked_brackets :
    (parseType 200 (Scan.init "Map[string, (int, int)]," 0)).map
        (fun p => p.1.text)
      = .ok "Map[string, (int, int)]"
    ∧ (parseType 200 (Scan.init "Map<string, (int, int)>," 0)).map
        (fun p => p.1.text)
      = .ok "Map<string" :=
  ⟨rfl, rfl⟩

/-- Claim C4: the code does not raise on `module 123`.  `parseModule` reads
the module name with `parseNamespacedIdent`, which calls `nextIdent`
directly and never performs the alphabetic-start check of `parseIdent`, so
parsing succeeds and returns a Module named `123` with no includes and no
interfaces — there is no "Expected identifier" failure at offset 7. -/
theorem parseModule_module123_succeeds :
    (parseModule 200 (Scan.init "module 123" 0)).map Prod.fst
      = .ok { name := "123", includes := [], ifaces := [] } := rfl

/-- Claim C5: string literals round-trip as specified.  A single-quoted
`foo` captures `foo`.  A literal opened by three single quotes has a
delimiter of length 3 (hence raw) and captures `foo`; inside a raw literal
a backslash has no escaping role (a raw literal holding a single backslash
before the closing delimiter keeps the backslash verbatim and still finds
the closing delimiter).  In a double-quoted literal the backslash-quote
escape is consumed as a two-character pair, so the capture is the four
characters `a`, backslash, double quote, `b`, unprocessed.  The delimiters
are excluded from the capture in every case. -/
theorem parseString_round_trip :
    (parseString 200 (Scan.init "\x27foo\x27" 0)).map (fun p => p.1.text)
        = .ok "foo"
    ∧ (parseQuotes 200 (Scan.init "\x27\x27\x27foo\x27\x27\x27" 0)).map
          (fun p => (p.1, p.2.1))
        = .ok ("\x27\x27\x27", true)
    ∧ (parseString 200 (Scan.init "\x27\x27\x27foo\x27\x27\x27" 0)).map
          (fun p => p.1.text)
        = .ok "foo"
    ∧ (parseString 200 (Scan.init "\x27\x27\x27a\x5c\x27\x27\x27" 0)).map
          (fun p => p.1.text)
        = .ok "a\x5c"
    ∧ (parseString 200 (Scan.init "\"a\x5c\"b\"" 0)).map (fun p => p.1.text)
        = .ok "a\x5c\"b" :=
  ⟨rfl, rfl, rfl, rfl, rfl⟩

/-- Claim C8: two functions with the same name inside one interface do not
make parsing fail: the interface's function mapping ends up with exactly
one entry for that name, holding the later declaration (last-write-wins).
The second conjunct shows what the earlier declaration parses to on its
own, so the stored entry is indeed the later declaration, not the first. -/
theorem parseIface_duplicate_last_wins :
    (parseIface 200 (Scan.init
          "I \x7b f(x: int) -> int, f() -> string, \x7d" 0)).map Prod.fst
      = .ok { name := "I",
              funcs := [("f", { name := "f", args := [], res := "string" })] }
    ∧ (parseFunc 200 (Scan.init "f(x: int) -> int" 0)).map Prod.fst
      = .ok { name := "f", args := [("int", "x")], res := "int" } :=
  ⟨rfl, rfl⟩

/-- Claim C9: code generation is deterministic: running the generators
(`genIncludes`, `genVirtualIfaces`, `genClientIfaces`, `genDispatchFuncs`)
twice on the same unmodified Module yields byte-identical output.  In this
embedding the generators are pure functions of the Module alone — they
read no state besides their arguments — so two runs coincide. -/
theorem codegen_deterministic (m : Module) :
    (genIncludes m.includes, genVirtualIfaces m m.ifaces,
     genClientIfaces m.ifaces, genDispatchFuncs m.ifaces)
    = (genIncludes m.includes, genVirtualIfaces m m.ifaces,
       genClientIfaces m.ifaces, genDispatchFuncs m.ifaces) := rfl

/-- Claim C10: the `off` parameter of the `Scan` constructor is ignored:
for every source string and every integer `off`, the constructed scanner's
cursor offset is 0, so a caller cannot start scanning mid-string through
the constructor. -/
theorem scan_init_ignores_off (src : String) (off : Int) :
    (Scan.init src off).off = 0 := rfl

-- ==== Scanner backtracking lemmas (for C6) ==================================

/-- The method `isStr` never changes the scanner state at all: both branches restore
the offset pushed by `save`. -/
theorem Scan.isStr_snd_eq (s : Scan) (t : String) : (s.isStr t).2 = s := by
  by_cases hp : t.toList.isPrefixOf (List.drop s.off s.src) = true
  · simp only [Scan.isStr, Scan.save, Scan.skipStr, hp, if_true, ite_true]
    rfl
  · simp only [Scan.isStr, Scan.save, Scan.skipStr, hp, if_false, ite_false]
    rfl

/-- A failed `skipSeparator` restores the scanner state exactly. -/
theorem Scan.skipSeparator_false_state (s : Scan) (sep : String) :
    (s.skipSeparator sep).1 = false → (s.skipSeparator sep).2 = s := by
  by_cases hp :
      sep.toList.isPrefixOf (List.drop (Scan.wsEnd s.src s.off) s.src) = true
  · intro h
    exfalso
    simp only [Scan.skipSeparator, Scan.save, Scan.skipWhitespace,
      Scan.skipStr, hp, if_true, ite_true] at h
    simp at h
  · intro h
    simp only [Scan.skipSeparator, Scan.save, Scan.skipWhitespace,
      Scan.skipStr, hp, if_false, ite_false]
    rfl

/-- A failed `skipKeyword` restores the scanner state exactly, whether the
literal match failed or the keyword-boundary check did. -/
theorem Scan.skipKeyword_false_state (s : Scan) (kw : String) :
    (s.skipKeyword kw).1 = false → (s.skipKeyword kw).2 = s := by
  by_cases hp :
      kw.toList.isPrefixOf (List.drop (Scan.wsEnd s.src s.off) s.src) = true
  · simp only [Scan.skipKeyword, Scan.save, Scan.skipWhitespace,
      Scan.skipStr, hp, if_true, ite_true, Bool.true_and]
    split
    · intro h
      simp at h
    · intro h
      rfl
  · simp only [Scan.skipKeyword, Scan.save, Scan.skipWhitespace,
      Scan.skipStr, hp, if_false, ite_false, Bool.false_and]
    intro h
    rfl

/-- Claim C6: a failed speculative match never advances the cursor: for
every scanner state and every argument string, whenever `skipSeparator`,
`skipKeyword` or `isStr` returns false, the cursor offset after the call
equals the offset before it. -/
theorem speculative_fail_preserves_offset (s : Scan) (sep kw t : String) :
    ((s.skipSeparator sep).1 = false → ((s.skipSeparator sep).2).off = s.off)
    ∧ ((s.skipKeyword kw).1 = false → ((s.skipKeyword kw).2).off = s.off)
    ∧ ((s.isStr t).1 = false → ((s.isStr t).2).off = s.off) := by
  refine ⟨fun h => ?_, fun h => ?_, fun h => ?_⟩
  · rw [Scan.skipSeparator_false_state s sep h]
  · rw [Scan.skipKeyword_false_state s kw h]
  · rw [Scan.isStr_snd_eq s t]

/-- Witness for C6: on the scanner over `"abc"`, matching the separator,
keyword and literal `"x"` all fail, and each call leaves the offset at 0. -/
theorem speculative_fail_preserves_offset_witness :
    (((Scan.init "abc" 0).skipSeparator "x").2).off = (Scan.init "abc" 0).off
    ∧ (((Scan.init "abc" 0).skipKeyword "x").2).off = (Scan.init "abc" 0).off
    ∧ (((Scan.init "abc" 0).isStr "x").2).off = (Scan.init "abc" 0).off := by
  have h := speculative_fail_preserves_offset (Scan.init "abc" 0) "x" "x" "x"
  exact ⟨h.1 (by decide), h.2.1 (by decide), h.2.2 (by decide)⟩

-- ==== Identifier lemmas (for C7) ============================================

/-- The sixteen lowercase hexadecimal characters. -/
def hexChars : List Char := "0123456789abcdef".toList

/-- The helper `hexDigit` always produces a hexadecimal character. -/
theorem hexDigit_mem (n : Nat) : hexDigit n ∈ hexChars := by
  unfold hexDigit hexChars
  by_cases h : n < 16
  · interval_cases n <;> decide
  · rw [List.getD_eq_default]
    · decide
    · simp only [not_lt] at h
      calc ("0123456789abcdef".toList).length = 16 := by decide
        _ ≤ n := h

/-- Every character of a byte's hex rendering is hexadecimal. -/
theorem mem_byteHex_mem_hexChars {c : Char} {b : Nat} (h : c ∈ byteHex b) :
    c ∈ hexChars := by
  rcases List.mem_cons.mp h with rfl | h2
  · exact hexDigit_mem _
  rcases List.mem_cons.mp h2 with rfl | h3
  · exact hexDigit_mem _
  · cases h3

/-- The MD5 digest is 16 bytes. -/
theorem md5Digest_length (s : String) : (md5Digest s).length = 16 := by
  simp [md5Digest, wordLE]

/-- Rendering bytes in hex doubles the length. -/
theorem flatten_map_byteHex_length (l : List Nat) :
    ((l.map byteHex).flatten).length = 2 * l.length := by
  induction l with
  | nil => simp
  | cons a t ih =>
    simp only [List.map_cons, List.flatten_cons, List.length_append,
      List.length_cons, byteHex, List.length_nil, ih]
    omega

/-- The MD5 hexdigest is 32 characters. -/
theorem md5HexChars_length (s : String) : (md5HexChars s).length = 32 := by
  unfold md5HexChars
  rw [flatten_map_byteHex_length, md5Digest_length]

/-- The derived identifier is exactly 16 characters. -/
theorem idOf_length (name : String) : (idOf name).length = 16 := by
  show ((md5HexChars name).take 16).length = 16
  rw [List.length_take, md5HexChars_length]
  omega

/-- Every character of the derived identifier is hexadecimal. -/
theorem idOf_mem_hexChars (name : String) :
    ∀ c ∈ (idOf name).toList, c ∈ hexChars := by
  intro c hc
  have h1 : c ∈ md5HexChars name := List.take_subset 16 (md5HexChars name) hc
  unfold md5HexChars at h1
  rcases List.mem_flatten.mp h1 with ⟨l, hl, hcl⟩
  rcases List.mem_map.mp hl with ⟨b, _, rfl⟩
  exact mem_byteHex_mem_hexChars hcl

/-- Claim C7: identifier derivation is deterministic (computing it twice
yields the same value), always produces exactly 16 hexadecimal characters,
and depends only on the name: a `Func` and an `Iface` sharing a name get
the same identifier. -/
theorem id_deterministic_hex16 (f : Func) (i : Iface) :
    f.id = f.id
    ∧ i.id = i.id
    ∧ f.id.length = 16
    ∧ i.id.length = 16
    ∧ (∀ c ∈ f.id.toList, c ∈ hexChars)
    ∧ (∀ c ∈ i.id.toList, c ∈ hexChars)
    ∧ (f.name = i.name → f.id = i.id) := by
  refine ⟨rfl, rfl, idOf_length f.name, idOf_length i.name,
    idOf_mem_hexChars f.name, idOf_mem_hexChars i.name, fun h => ?_⟩
  show idOf f.name = idOf i.name
  rw [h]

/-- Witness for C7: on the function `greet` and an interface also named
`greet`, the identifier evaluates to `77f6fbc1bc9e0163` (the first 16 hex
characters of the MD5 of `greet`), has length 16, its first character is
hexadecimal, and the function and interface identifiers coincide. -/
theorem id_deterministic_hex16_witness :
    (Func.mk "greet" [("string", "name")] "string").id = "77f6fbc1bc9e0163"
    ∧ (Func.mk "greet" [("string", "name")] "string").id.length = 16
    ∧ '7' ∈ hexChars
    ∧ (Func.mk "greet" [("string", "name")] "string").id
        = (Iface.mk "greet" []).id := by
  have h := id_deterministic_hex16
    (Func.mk "greet" [("string", "name")] "string") (Iface.mk "greet" [])
  exact ⟨by decide, h.2.2.1, h.2.2.2.2.1 '7' (by decide), h.2.2.2.2.2.2 rfl⟩

end Chatty
